import Mathlib

/-!
Verification of the recording-session coordinator of the AI Meeting Note Taker
browser extension.

The embedding models the two core source files:

* `src/extension/background.js` — the session orchestrator: the module globals
  (`isRecording`, `ws`, `transcriptLines`, `currentNotes`, the durable
  `chrome.storage.local` keys and the `wsAuthResolved` flag) become the fields
  of `BgState`; `startRecording`, `stopRecording`, `handleWebSocketMessage`,
  the `AUDIO_DATA` listener and the `ws.onerror` / `ws.onclose` handlers become
  pure state-transition functions.  Fallible platform calls
  (`chrome.tabs.query`, `chrome.offscreen.createDocument`,
  `chrome.tabCapture.getMediaStreamId`, `chrome.runtime.sendMessage`) are
  modelled by environment records whose `Option String` fields say whether the
  call throws and with which message; the asynchronous races (the 10 s
  final-notes wait, the connect handshake) are modelled by passing in which
  event arrived and when.  Console logging and the fire-and-forget popup
  broadcasts are kept only where a claim is about them.

* `src/extension/offscreen.js` — the capture pipeline: the globals
  (`mediaRecorder`, `mediaStream`, `audioContext`, `recordingInterval`) become
  `OffState`; `startRecordingParams`, the 3000 ms rotation timeout callback and
  `stopCapture` become transition functions that also emit an event trace
  (`CapEvent`) recording encoder creations, starts and stops, so that the
  serialization invariant can be stated about every instant of a run.
-/

namespace MeetingNoter

/-- NotesDocument: the five-field notes object built by the orchestrator
(`{summary, key_points, action_items, decisions, questions}`). -/
structure Notes where
  summary : String
  key_points : List String
  action_items : List String
  decisions : List String
  questions : List String
  deriving Repr, DecidableEq

/-- The five payload fields of a `notes` / `final_notes` server frame.
(The raw frame also carries its `type` tag, which the embedding keeps in the
event constructors instead.) -/
structure FinalNotesData where
  summary : String
  key_points : List String
  action_items : List String
  decisions : List String
  questions : List String
  deriving Repr, DecidableEq

/-- The five-field projection the orchestrator applies to a received frame
(background.js 183-189 and 282-288). -/
def projectNotes (d : FinalNotesData) : Notes :=
  { summary := d.summary
    key_points := d.key_points
    action_items := d.action_items
    decisions := d.decisions
    questions := d.questions }

/-- Structured result `{success, error?, notes?}` returned by the orchestrator
commands. -/
structure CmdResult where
  success : Bool
  error : Option String
  notes : Option Notes
  deriving Repr, DecidableEq

/-- WebSocket ready states (only OPEN is ever tested by the source). -/
inductive WsReady
  | connecting
  | wopen
  | closing
  | closed
  deriving Repr, DecidableEq

/-- Fire-and-forget broadcasts sent to the popup via `broadcastToPopup`. -/
inductive Broadcast
  | status (text : String)
  | connectionStatus (connected : Bool)
  | errMsg (msg : String)
  | transcriptMsg (text : String)
  | notesUpdate (n : Notes)
  deriving Repr, DecidableEq

/-- Frames the orchestrator sends on the WebSocket. -/
inductive OutFrame
  | auth (api_key : String)
  | audio (data : String) (format : String)
  | stopFrame
  | ping
  deriving Repr, DecidableEq

/-- The module-level state of background.js: the in-memory globals
(lines 10-16, 245) plus the durable `chrome.storage.local` session keys and
whether the offscreen capture document currently exists. -/
structure BgState where
  isRecording : Bool
  ws : Option WsReady
  transcriptLines : List String
  currentNotes : Option Notes
  storageTranscript : List String
  storageNotes : Option Notes
  storageIsRecording : Bool
  offscreenCreated : Bool
  wsAuthResolved : Bool
  deriving Repr, DecidableEq

/-- The initial state of a freshly started service worker. -/
def initBg : BgState :=
  { isRecording := false
    ws := none
    transcriptLines := []
    currentNotes := none
    storageTranscript := []
    storageNotes := none
    storageIsRecording := false
    offscreenCreated := false
    wsAuthResolved := false }

/-- JS `hay.includes(needle)` on strings. -/
def includesStr (hay needle : String) : Bool :=
  decide (needle.data <:+: hay.data)

/-- Inbound server frames dispatched by `handleWebSocketMessage`
(background.js 247-301).  A `transcript` frame carries `data.start` already
rendered by `toFixed(1)` (the float formatting is irrelevant to every claim)
and `data.text`. -/
inductive WsEvent
  | auth_success
  | errorEvt (message : String)
  | transcriptEvt (startStr : String) (text : String)
  | notesEvt (d : FinalNotesData)
  | final_notesEvt (d : FinalNotesData)
  | pong
  deriving Repr, DecidableEq

/-- Output of one `handleWebSocketMessage` dispatch: the new module state, the
popup broadcasts it emitted, and the value (if any) it passed to the connect
resolver captured from `connectWebSocket`. -/
structure HwmOut where
  state : BgState
  broadcasts : List Broadcast
  resolverCall : Option Bool
  deriving Repr, DecidableEq

/-- `handleWebSocketMessage(data, authResolver)` (background.js 247-301).
Note the switch has no `final_notes` case: a `final_notes` frame reaching the
permanent handler does nothing (it only matters to the temporary listener
installed by `stopRecording`). -/
def handleWebSocketMessage (e : WsEvent) (s : BgState) : HwmOut :=
  match e with
  | WsEvent.auth_success =>
      if s.wsAuthResolved then
        { state := s, broadcasts := [Broadcast.connectionStatus true], resolverCall := none }
      else
        { state := { s with wsAuthResolved := true }
          broadcasts := [Broadcast.connectionStatus true]
          resolverCall := some true }
  | WsEvent.errorEvt m =>
      if !s.wsAuthResolved && includesStr m "API key" then
        { state := { s with wsAuthResolved := true }
          broadcasts := [Broadcast.errMsg m]
          resolverCall := some false }
      else
        { state := s, broadcasts := [Broadcast.errMsg m], resolverCall := none }
  | WsEvent.transcriptEvt ts txt =>
      let line := "[" ++ ts ++ "s] " ++ txt
      { state := { s with transcriptLines := s.transcriptLines ++ [line]
                          storageTranscript := s.transcriptLines ++ [line] }
        broadcasts := [Broadcast.transcriptMsg txt]
        resolverCall := none }
  | WsEvent.notesEvt d =>
      { state := { s with currentNotes := some (projectNotes d)
                          storageNotes := some (projectNotes d) }
        broadcasts := [Broadcast.notesUpdate (projectNotes d)]
        resolverCall := none }
  | WsEvent.final_notesEvt _ =>
      { state := s, broadcasts := [], resolverCall := none }
  | WsEvent.pong =>
      { state := s, broadcasts := [], resolverCall := none }

/-- Dispatch a whole list of inbound frames through the permanent handler. -/
def processEvents (evs : List WsEvent) (s : BgState) : BgState :=
  evs.foldl (fun st e => (handleWebSocketMessage e st).state) s

/-- Spec-side definition (from the spec sentence for C4): the last provisional
`notes` document carried by a list of server events, starting from a given
initial persisted value. -/
def lastNotesDoc (evs : List WsEvent) (init : Option Notes) : Option Notes :=
  evs.foldl
    (fun acc e =>
      match e with
      | WsEvent.notesEvt d => some (projectNotes d)
      | _ => acc)
    init

/-- Events that can touch the resolution of one `connectWebSocket` attempt:
an inbound frame (the permanent `onmessage` handler holds this attempt's
resolver), the `onerror` callback, or the attempt's own 10 s timer, which
resolves `false` only when the socket's readyState is not OPEN
(background.js 215-241). -/
inductive AttemptEvent
  | msg (e : WsEvent)
  | errorFired
  | timeoutFired (readyStateOpen : Bool)
  deriving Repr, DecidableEq

/-- JS promise semantics: only the first call to `resolve` determines the
outcome; later calls are ignored. -/
def firstWins (cur call : Option Bool) : Option Bool :=
  match cur with
  | some b => some b
  | none => call

/-- One event hitting a pending connect attempt: threads the module state and
the promise's resolution (`none` = still pending). -/
def attemptStep (acc : BgState × Option Bool) (ev : AttemptEvent) : BgState × Option Bool :=
  match ev with
  | AttemptEvent.msg e =>
      let o := handleWebSocketMessage e acc.1
      (o.state, firstWins acc.2 o.resolverCall)
  | AttemptEvent.errorFired =>
      (acc.1, firstWins acc.2 (some false))
  | AttemptEvent.timeoutFired isOpen =>
      (acc.1, firstWins acc.2 (if isOpen then none else some false))

/-- Run one `connectWebSocket` attempt against a list of events, returning the
final module state and the promise's resolution (`none` = the `await` in
`startRecording` never completes). -/
def runAttempt (s : BgState) (evs : List AttemptEvent) : BgState × Option Bool :=
  evs.foldl attemptStep (s, none)

/-- Environment of one `startRecording` call: whether each fallible platform
step throws (`some message`) or succeeds (`none`), whether a focused tab
exists, and the outcome and socket left behind by `connectWebSocket` (which
assigns the new WebSocket to the `ws` global before resolving). -/
structure StartEnv where
  tabsQueryErr : Option String
  hasActiveTab : Bool
  wsAfterConnect : Option WsReady
  connectOk : Bool
  setupOffscreenErr : Option String
  getStreamIdErr : Option String
  sendStartCaptureErr : Option String
  deriving Repr, DecidableEq

/-- `startRecording` (background.js 76-130).  Popup broadcasts and console
logging are elided; every `catch` return is the structured
`{success:false, error}` of line 128. -/
def startRecording (env : StartEnv) (s : BgState) : CmdResult × BgState :=
  if s.isRecording then
    ({ success := false, error := some "Already recording", notes := none }, s)
  else
    match env.tabsQueryErr with
    | some m => ({ success := false, error := some m, notes := none }, s)
    | none =>
      if !env.hasActiveTab then
        ({ success := false, error := some "No active tab", notes := none }, s)
      else
        let s1 : BgState := { s with ws := env.wsAfterConnect }
        if !env.connectOk then
          ({ success := false, error := some "Failed to connect to API server", notes := none }, s1)
        else
          match env.setupOffscreenErr with
          | some m => ({ success := false, error := some m, notes := none }, s1)
          | none =>
            let s2 : BgState := { s1 with offscreenCreated := true }
            match env.getStreamIdErr with
            | some m => ({ success := false, error := some m, notes := none }, s2)
            | none =>
              match env.sendStartCaptureErr with
              | some m => ({ success := false, error := some m, notes := none }, s2)
              | none =>
                ({ success := true, error := none, notes := none },
                 { s2 with isRecording := true
                           transcriptLines := []
                           currentNotes := none
                           storageTranscript := []
                           storageNotes := none
                           storageIsRecording := true })

/-- Environment of one `stopRecording` call: whether the STOP_CAPTURE message
or `closeOffscreenDocument` throws, and whether (and when, in ms) a
`final_notes` frame reached the temporary listener of the bounded wait. -/
structure StopEnv where
  stopCaptureErr : Option String
  finalNotesArrival : Option (Nat × FinalNotesData)
  closeOffscreenErr : Option String
  deriving Repr, DecidableEq

/-- The 10 s bound of the final-notes wait (background.js 152). -/
def finalNotesTimeoutMs : Nat := 10000

/-- `stopRecording` (background.js 132-197).  The bounded wait resolves with
the frame's data when it arrives strictly before the 10 s timer, and with
`null` otherwise; the temporary listener sees nothing when `ws` is not OPEN.
`ws.close(); ws = null` happens before `closeOffscreenDocument`, so the catch
taken on a close-offscreen failure already has `ws = null`; both catches set
`isRecording = false` (line 194).  Note `stopRecording` never writes
`currentNotes` or the persisted `notes` key. -/
def stopRecording (env : StopEnv) (s : BgState) : CmdResult × BgState :=
  if !s.isRecording then
    ({ success := false, error := some "Not recording", notes := none }, s)
  else
    match env.stopCaptureErr with
    | some m =>
        ({ success := false, error := some m, notes := none },
         { s with isRecording := false })
    | none =>
        let finalNotes : Option FinalNotesData :=
          if s.ws = some WsReady.wopen then
            match env.finalNotesArrival with
            | some (t, d) => if t < finalNotesTimeoutMs then some d else none
            | none => none
          else none
        match env.closeOffscreenErr with
        | some m =>
            ({ success := false, error := some m, notes := none },
             { s with ws := none, isRecording := false })
        | none =>
            ({ success := true, error := none, notes := finalNotes.map projectNotes },
             { s with ws := none, isRecording := false, offscreenCreated := false })

/-- An AUDIO_DATA runtime message from the offscreen document. -/
structure AudioMsg where
  data : String
  format : Option String
  deriving Repr, DecidableEq

/-- JS `message.format || 'webm'` (both a missing and an empty format fall
back to the default). -/
def jsOrWebm (f : Option String) : String :=
  match f with
  | some x => if x = "" then "webm" else x
  | none => "webm"

/-- The AUDIO_DATA `onMessage` listener (background.js 304-317): forwards the
chunk as an `audio` frame exactly when the `ws` global is non-null and OPEN,
and always answers `{received: true}`.  It never reads `isRecording`. -/
def onAudioData (s : BgState) (m : AudioMsg) : List OutFrame × Bool :=
  if s.ws = some WsReady.wopen then
    ([OutFrame.audio m.data (jsOrWebm m.format)], true)
  else
    ([], true)

/-- `ws.onerror` (background.js 220-224): logs, broadcasts an error to the
popup and calls the connect resolver with `false`; it touches no session
state. -/
def onWsError (s : BgState) : BgState × List Broadcast × Option Bool :=
  (s, [Broadcast.errMsg "WebSocket connection failed"], some false)

/-- `ws.onclose` (background.js 226-229): logs and broadcasts the lost
connectivity; it touches no session state. -/
def onWsClose (s : BgState) : BgState × List Broadcast :=
  (s, [Broadcast.connectionStatus false])

/-! Concrete data used by counterexamples and witnesses. -/

/-- A concrete provisional notes frame. -/
def sampleDoc : FinalNotesData :=
  { summary := "weekly sync"
    key_points := ["budget"]
    action_items := ["send recap"]
    decisions := []
    questions := [] }

/-- A Recording-state snapshot with the connection authenticated and open. -/
def recBg : BgState :=
  { initBg with isRecording := true
                ws := some WsReady.wopen
                offscreenCreated := true
                storageIsRecording := true
                wsAuthResolved := true }

/-- An Idle state with stray capture resources (offscreen document and an open
socket) left behind. -/
def strayBg : BgState :=
  { initBg with offscreenCreated := true, ws := some WsReady.wopen }

/-- A stop environment with no exceptions and no final-notes frame. -/
def envNone : StopEnv :=
  { stopCaptureErr := none, finalNotesArrival := none, closeOffscreenErr := none }

/-- A stop environment where the final-notes frame arrives at 5 s. -/
def envArrives : StopEnv :=
  { stopCaptureErr := none
    finalNotesArrival := some (5000, sampleDoc)
    closeOffscreenErr := none }

/-- A start environment whose tab query finds no active tab. -/
def envNoTab : StartEnv :=
  { tabsQueryErr := none
    hasActiveTab := false
    wsAfterConnect := none
    connectOk := false
    setupOffscreenErr := none
    getStreamIdErr := none
    sendStartCaptureErr := none }

/-- A fully successful start environment. -/
def envStartOk : StartEnv :=
  { tabsQueryErr := none
    hasActiveTab := true
    wsAfterConnect := some WsReady.wopen
    connectOk := true
    setupOffscreenErr := none
    getStreamIdErr := none
    sendStartCaptureErr := none }

/-! The capture pipeline (offscreen.js). -/

/-- Observable events of the capture pipeline, in program order: encoder
(`MediaRecorder`) instances are numbered in creation order. -/
inductive CapEvent
  | encCreated (id : Nat)
  | encStarted (id : Nat)
  | encStopped (id : Nat)
  | timerCancelled
  | tracksStopped
  | contextClosed
  deriving Repr, DecidableEq

/-- The module-level state of offscreen.js (lines 8-11): `activeRecorders`
is the list of encoder ids currently in the `recording` state (the source
keeps a reference only to the latest in `mediaRecorder`; the list lets the
at-most-one invariant be a theorem rather than a typing artifact),
`recordingInterval` says whether a rotation timeout is pending, and `nextId`
numbers the next encoder instance. -/
structure OffState where
  mediaStream : Bool
  activeRecorders : List Nat
  mediaRecorder : Option Nat
  nextId : Nat
  recordingInterval : Bool
  audioContext : Bool
  deriving Repr, DecidableEq

/-- The initial offscreen state (all handles null). -/
def initOffState : OffState :=
  { mediaStream := false
    activeRecorders := []
    mediaRecorder := none
    nextId := 0
    recordingInterval := false
    audioContext := false }

/-- The rotation interval (offscreen.js 120). -/
def rotationIntervalMs : Nat := 3000

/-- `startRecordingParams` (offscreen.js 73-121): if the stream is gone it
returns immediately; otherwise it creates a fresh `MediaRecorder` on the
stream, starts it, stores the reference and arms the 3000 ms rotation
timeout. -/
def startRecordingParams (s : OffState) : OffState × List CapEvent :=
  if s.mediaStream then
    ({ s with activeRecorders := s.nextId :: s.activeRecorders
              mediaRecorder := some s.nextId
              nextId := s.nextId + 1
              recordingInterval := true },
     [CapEvent.encCreated s.nextId, CapEvent.encStarted s.nextId])
  else
    (s, [])

/-- The rotation timeout callback firing for the recorder `rid` captured in
its closure (offscreen.js 115-120): it runs only if the timeout is still
pending (a cancelled timer never fires), and then stops that recorder before
recursing into `startRecordingParams` to start the next one. -/
def rotationTick (rid : Nat) (s : OffState) : OffState × List CapEvent :=
  if s.recordingInterval then
    let s0 : OffState := { s with recordingInterval := false }
    if s0.mediaStream then
      let s1 : OffState := { s0 with activeRecorders := s0.activeRecorders.erase rid }
      let p := startRecordingParams s1
      (p.1, CapEvent.encStopped rid :: p.2)
    else
      (s0, [])
  else
    (s, [])

/-- Run `n` rotation ticks; each tick fires for the recorder currently
referenced by `mediaRecorder` (in an uninterrupted run the closure's recorder
is exactly that reference). -/
def rotateN : OffState → Nat → OffState × List CapEvent
  | s, 0 => (s, [])
  | s, n + 1 =>
      match s.mediaRecorder with
      | none => (s, [])
      | some rid =>
          let p := rotationTick rid s
          let q := rotateN p.1 n
          (q.1, p.2 ++ q.2)

/-- `startCapture` after `getUserMedia` and the `AudioContext` playback
routing succeed (offscreen.js 33-65): binds the stream and begins rotation. -/
def startCapture (s : OffState) : OffState × List CapEvent :=
  startRecordingParams { s with mediaStream := true, audioContext := true }

/-- A full capture run: bind the stream, then let the rotation loop fire `n`
times; returns the final state and the whole event trace. -/
def captureRun (n : Nat) : OffState × List CapEvent :=
  let p := startCapture initOffState
  let q := rotateN p.1 n
  (q.1, p.2 ++ q.2)

/-- The offscreen state in the middle of a run, with encoder `k` recording
and the rotation timeout armed. -/
def startedState (k : Nat) : OffState :=
  { mediaStream := true
    activeRecorders := [k]
    mediaRecorder := some k
    nextId := k + 1
    recordingInterval := true
    audioContext := true }

/-- One rotation step as the spec describes it: stop encoder `k`, then create
and start encoder `k+1`. -/
def chunkCycle (k : Nat) : List CapEvent :=
  [CapEvent.encStopped k, CapEvent.encCreated (k + 1), CapEvent.encStarted (k + 1)]

/-- The trace segment produced by `n` rotation ticks starting at encoder `k`. -/
def segTrace (k : Nat) : Nat → List CapEvent
  | 0 => []
  | n + 1 => chunkCycle k ++ segTrace (k + 1) n

/-- Spec-side canonical trace of a run with `n` rotations: start encoder 0,
then one `chunkCycle` per rotation — each cycle stops the current encoder
strictly before creating and starting its successor. -/
def canonicalTrace (n : Nat) : List CapEvent :=
  [CapEvent.encCreated 0, CapEvent.encStarted 0] ++ segTrace 0 n

/-- Contribution of one event to the number of encoders simultaneously in the
`recording` state. -/
def activeDelta : CapEvent → Int
  | CapEvent.encStarted _ => 1
  | CapEvent.encStopped _ => -1
  | _ => 0

/-- Number of encoders in the `recording` state after a trace prefix. -/
def activeCount (l : List CapEvent) : Int :=
  (l.map activeDelta).sum

/-- Maximum of `activeCount` over all prefixes of a trace. -/
def prefMax : List CapEvent → Int
  | [] => 0
  | e :: t => max 0 (activeDelta e + prefMax t)

/-- An AUDIO_DATA message as built by the `onstop` handler. -/
structure AudioDataMsg where
  data : String
  format : String
  deriving Repr, DecidableEq

/-- The `onstop` handler of a stopped recorder (offscreen.js 91-104): if any
data chunks were collected it bundles them into one blob and sends exactly one
AUDIO_DATA message (the base64 encoding is abstracted as concatenation);
otherwise it sends nothing. -/
def onstopMessages (chunks : List String) : List AudioDataMsg :=
  if chunks.isEmpty then []
  else [{ data := String.join chunks, format := "webm" }]

/-- `stopCapture` (offscreen.js 123-149): clears the pending rotation timeout
first, then stops the referenced recorder only if its state is not
`inactive`, then stops the stream's tracks, then closes the `AudioContext`,
and finally nulls the recorder reference.  Total: every branch is a plain
field update. -/
def stopCapture (s : OffState) : OffState × List CapEvent :=
  let e1 : List CapEvent :=
    if s.recordingInterval then [CapEvent.timerCancelled] else []
  let e2 : List CapEvent :=
    match s.mediaRecorder with
    | some r => if r ∈ s.activeRecorders then [CapEvent.encStopped r] else []
    | none => []
  let active' : List Nat :=
    match s.mediaRecorder with
    | some r => s.activeRecorders.erase r
    | none => s.activeRecorders
  let e3 : List CapEvent :=
    if s.mediaStream then [CapEvent.tracksStopped] else []
  let e4 : List CapEvent :=
    if s.audioContext then [CapEvent.contextClosed] else []
  ({ mediaStream := false
     activeRecorders := active'
     mediaRecorder := none
     nextId := s.nextId
     recordingInterval := false
     audioContext := false },
   e1 ++ e2 ++ e3 ++ e4)

/-- Spec-side cleanup order of `stopCapture`: timer cancellation, then the
encoder stop, then track release, then playback-routing release. -/
def stopOrder (s : OffState) : List CapEvent :=
  CapEvent.timerCancelled ::
    ((match s.mediaRecorder with
      | some r => [CapEvent.encStopped r]
      | none => []) ++ [CapEvent.tracksStopped, CapEvent.contextClosed])

end MeetingNoter

namespace MeetingNoter

/-! Theorems. -/

/-- Helper: a stop command in the not-Recording state returns the
`Not recording` failure and leaves the whole state untouched
(background.js 133-135 is an early return before any effect). -/
theorem stop_noop_when_idle (env : StopEnv) (s : BgState) (h : s.isRecording = false) :
    stopRecording env s
      = ({ success := false, error := some "Not recording", notes := none }, s) := by
  simp [stopRecording, h]

/-- C1: a start command received while `isRecording` is already true returns
the `{success:false, error:'Already recording'}` failure and leaves every
piece of session state (the flag, transcript, notes, socket, storage)
exactly unchanged. -/
theorem start_while_recording_rejected (env : StartEnv) (s : BgState)
    (h : s.isRecording = true) :
    startRecording env s
      = ({ success := false, error := some "Already recording", notes := none }, s) := by
  simp [startRecording, h]

/-- Witness for C1 at a concrete recording state and environment. -/
theorem start_while_recording_rejected_w :
    recBg.isRecording = true ∧
      startRecording envStartOk recBg
        = ({ success := false, error := some "Already recording", notes := none }, recBg) :=
  ⟨rfl, start_while_recording_rejected envStartOk recBg rfl⟩

/-- C7 counterexample: a stop command in an Idle state that still holds stray
capture resources (the offscreen document exists, the socket is open) fails
with `NotRecording` but performs no defensive reset at all — the post-state is
exactly the input state, stray resources included. -/
theorem stop_not_recording_no_reset :
    stopRecording envNone strayBg
        = ({ success := false, error := some "Not recording", notes := none }, strayBg) ∧
      strayBg.offscreenCreated = true ∧ strayBg.ws = some WsReady.wopen := by
  refine ⟨stop_noop_when_idle envNone strayBg rfl, rfl, rfl⟩

/-- C7 amended: a stop command received while not Recording fails with
`NotRecording` and returns immediately, leaving the entire state (including
any stray capture resources) unchanged; no defensive cleanup is performed.
The system is still never wedged in Stopping, because the call is an early
return. -/
theorem stop_not_recording_error_unchanged (env : StopEnv) (s : BgState)
    (h : s.isRecording = false) :
    stopRecording env s
      = ({ success := false, error := some "Not recording", notes := none }, s) := by
  simp [stopRecording, h]

/-- Witness for the amended C7 at a concrete state and environment. -/
theorem stop_not_recording_error_unchanged_w :
    initBg.isRecording = false ∧
      stopRecording envNone initBg
        = ({ success := false, error := some "Not recording", notes := none }, initBg) :=
  ⟨rfl, stop_not_recording_error_unchanged envNone initBg rfl⟩

/-- C8: a WebSocket `onerror` or `onclose` firing leaves the whole session
state — in particular `isRecording` — untouched: the handlers only notify
observers (`onclose` broadcasts the lost connectivity, `onerror` broadcasts an
error), and the resolver call made by `onerror` is ignored whenever the
connect attempt already resolved, so no transition out of Recording happens
before an explicit stop. -/
theorem ws_error_close_state_unchanged (s : BgState) (b : Bool) :
    (onWsError s).1 = s ∧
      (onWsClose s).1 = s ∧
      (onWsError s).1.isRecording = s.isRecording ∧
      (onWsClose s).2 = [Broadcast.connectionStatus false] ∧
      (onWsError s).2.1 = [Broadcast.errMsg "WebSocket connection failed"] ∧
      (attemptStep (s, some b) AttemptEvent.errorFired).2 = some b :=
  ⟨rfl, rfl, rfl, rfl, rfl, rfl⟩

/-- Witness for C8 at a concrete Recording state. -/
theorem ws_error_close_state_unchanged_w :
    (onWsError recBg).1 = recBg ∧ (onWsError recBg).1.isRecording = true ∧
      (onWsClose recBg).1 = recBg :=
  ⟨(ws_error_close_state_unchanged recBg true).1,
    (ws_error_close_state_unchanged recBg true).2.2.1,
    (ws_error_close_state_unchanged recBg true).2.1⟩

/-- C10: an AUDIO_DATA message is forwarded as an `audio` frame if and only if
the `ws` global is non-null and OPEN; `isRecording` is not consulted (flipping
it changes nothing); when the socket is absent or not OPEN the chunk is
silently discarded while the listener still answers `{received: true}` with no
error. -/
theorem audio_forward_iff_ws_open (s : BgState) (m : AudioMsg) :
    ((onAudioData s m).1 ≠ [] ↔ s.ws = some WsReady.wopen) ∧
      (s.ws = some WsReady.wopen →
        (onAudioData s m).1 = [OutFrame.audio m.data (jsOrWebm m.format)]) ∧
      (s.ws ≠ some WsReady.wopen → (onAudioData s m).1 = []) ∧
      (onAudioData s m).2 = true ∧
      onAudioData { s with isRecording := !s.isRecording } m = onAudioData s m := by
  by_cases h : s.ws = some WsReady.wopen <;> simp [onAudioData, h]

/-- Witness for C10: a trailing chunk after stop (socket already cleared) is
dropped, while the same chunk with the socket open is forwarded. -/
theorem audio_forward_iff_ws_open_w :
    (onAudioData initBg { data := "Zm9v", format := none }).1 = [] ∧
      (onAudioData initBg { data := "Zm9v", format := none }).2 = true ∧
      (onAudioData recBg { data := "Zm9v", format := none }).1
        = [OutFrame.audio "Zm9v" "webm"] := by
  refine ⟨(audio_forward_iff_ws_open initBg { data := "Zm9v", format := none }).2.2.1 ?_,
    (audio_forward_iff_ws_open initBg { data := "Zm9v", format := none }).2.2.2.1,
    (audio_forward_iff_ws_open recBg { data := "Zm9v", format := none }).2.1 rfl⟩
  simp [initBg]

/-- C2: a stop command issued while Recording with the connection OPEN always
terminates with the session back in Idle (`isRecording = false`, on every
path, exceptions included); and when no platform call throws, the call
succeeds, returning the five-field notes object when the `final_notes` frame
arrived strictly before the 10 s bound, and `notes = null` when no frame
arrived or it lost the race against the timer. -/
theorem stop_while_recording_terminates_idle (env : StopEnv) (s : BgState)
    (h1 : s.isRecording = true) (h2 : s.ws = some WsReady.wopen) :
    (stopRecording env s).2.isRecording = false ∧
      (env.stopCaptureErr = none → env.closeOffscreenErr = none →
        ((stopRecording env s).1.success = true ∧
          (∀ t d, env.finalNotesArrival = some (t, d) → t < finalNotesTimeoutMs →
            (stopRecording env s).1.notes = some (projectNotes d)) ∧
          (env.finalNotesArrival = none → (stopRecording env s).1.notes = none) ∧
          (∀ t d, env.finalNotesArrival = some (t, d) → finalNotesTimeoutMs ≤ t →
            (stopRecording env s).1.notes = none))) := by
  obtain ⟨sc, fa, co⟩ := env
  constructor
  · cases sc <;> cases co <;> simp [stopRecording, h1]
  · rintro rfl rfl
    refine ⟨by simp [stopRecording, h1], ?_, ?_, ?_⟩
    · rintro t d rfl ht
      simp [stopRecording, h1, h2, ht]
    · rintro rfl
      simp [stopRecording, h1, h2]
    · rintro t d rfl ht
      simp [stopRecording, h1, h2, Nat.not_lt.mpr ht]

/-- Witness for C2: a concrete stop with the frame arriving at 5 s yields the
five-field notes object, and a concrete stop with no frame yields null;
both end Idle. -/
theorem stop_while_recording_terminates_idle_w :
    (stopRecording envArrives recBg).2.isRecording = false ∧
      (stopRecording envArrives recBg).1.success = true ∧
      (stopRecording envArrives recBg).1.notes = some (projectNotes sampleDoc) ∧
      (stopRecording envNone recBg).1.notes = none := by
  have h1 := stop_while_recording_terminates_idle envArrives recBg rfl rfl
  have h2 := stop_while_recording_terminates_idle envNone recBg rfl rfl
  exact ⟨h1.1, (h1.2 rfl rfl).1, (h1.2 rfl rfl).2.1 5000 sampleDoc rfl (by decide),
    (h2.2 rfl rfl).2.2.1 rfl⟩

/-- C3: evaluation of the connect-attempt resolution at the failing input.
A first attempt resolved by `auth_success` sets the module-global
`wsAuthResolved`, which is never reset; on a second attempt the incoming
`auth_success` is therefore ignored, and the 10 s timer resolves nothing
because the socket's readyState is OPEN — the attempt's promise stays pending
(`none`) forever, so the second session's `startRecording` hangs, contrary to
the claim that the first resolving event (here `auth_success`) determines the
outcome of every attempt. -/
theorem connect_second_attempt_hangs :
    (runAttempt initBg [AttemptEvent.msg WsEvent.auth_success]).2 = some true ∧
      (runAttempt initBg [AttemptEvent.msg WsEvent.auth_success]).1.wsAuthResolved = true ∧
      (runAttempt { initBg with wsAuthResolved := true }
          [AttemptEvent.msg WsEvent.auth_success, AttemptEvent.timeoutFired true]).2
        = none ∧
      (runAttempt { initBg with wsAuthResolved := true }
          [AttemptEvent.msg WsEvent.auth_success,
            AttemptEvent.timeoutFired false]).2 = some false :=
  ⟨rfl, rfl, rfl, rfl⟩

/-- Helper: `handleWebSocketMessage` changes the persisted notes key only on a
provisional `notes` frame, where it stores the five-field projection of that
frame; every other frame (including `final_notes`, which has no case in the
switch) leaves it alone. -/
theorem hwm_storageNotes (e : WsEvent) (s : BgState) :
    (handleWebSocketMessage e s).state.storageNotes
      = match e with
        | WsEvent.notesEvt d => some (projectNotes d)
        | _ => s.storageNotes := by
  cases e <;> simp [handleWebSocketMessage] <;> split <;> rfl

/-- Helper: a whole run of inbound frames leaves the persisted notes key at
the last provisional `notes` document received (or the initial value). -/
theorem processEvents_storageNotes (evs : List WsEvent) :
    ∀ s : BgState, (processEvents evs s).storageNotes = lastNotesDoc evs s.storageNotes := by
  induction evs with
  | nil => intro s; rfl
  | cons e t ih =>
      intro s
      have h1 : processEvents (e :: t) s
          = processEvents t (handleWebSocketMessage e s).state := by
        simp [processEvents]
      rw [h1, ih]
      have h2 := hwm_storageNotes e s
      cases e <;> simp [lastNotesDoc] at h2 ⊢ <;> rw [h2]

/-- Helper: `stopRecording` never writes the persisted notes key or the
in-memory `currentNotes`. -/
theorem stopRecording_preserves_notes (env : StopEnv) (s : BgState) :
    (stopRecording env s).2.storageNotes = s.storageNotes ∧
      (stopRecording env s).2.currentNotes = s.currentNotes := by
  obtain ⟨sc, fa, co⟩ := env
  cases sc <;> cases co <;> by_cases h : s.isRecording <;> simp [stopRecording, h]

/-- C4 counterexample: in a session where a provisional `notes` document was
received and the final-notes wait then timed out (no `final_notes` frame
arrived), the stop succeeds but the persisted notes key still holds the stale
provisional document — it does not become null as the claim states. -/
theorem stop_timeout_retains_provisional_notes :
    ((stopRecording envNone (processEvents [WsEvent.notesEvt sampleDoc] recBg)).2).storageNotes
        = some (projectNotes sampleDoc) ∧
      (stopRecording envNone (processEvents [WsEvent.notesEvt sampleDoc] recBg)).1.success
        = true ∧
      (stopRecording envNone (processEvents [WsEvent.notesEvt sampleDoc] recBg)).1.notes
        = none ∧
      some (projectNotes sampleDoc) ≠ (none : Option Notes) := by
  refine ⟨rfl, rfl, rfl, by simp⟩

/-- C4 amended: `stopRecording` never modifies the persisted notes: after a
stop that ends a session which processed the inbound frames `evs`, the
persisted notes equal the last provisional `notes` document received during
the session (or the pre-session value if none arrived) — in particular, on a
final-notes timeout a previously received provisional document is retained
rather than becoming null, and a received `final_notes` document is returned
to the caller but never persisted. -/
theorem stop_persisted_notes_last_received (env : StopEnv) (evs : List WsEvent) (s : BgState) :
    ((stopRecording env (processEvents evs s)).2).storageNotes
        = lastNotesDoc evs s.storageNotes ∧
      ((stopRecording env (processEvents evs s)).2).currentNotes
        = (processEvents evs s).currentNotes := by
  refine ⟨?_, (stopRecording_preserves_notes env (processEvents evs s)).2⟩
  rw [(stopRecording_preserves_notes env (processEvents evs s)).1,
    processEvents_storageNotes evs s]

/-- Witness for the amended C4 at a concrete session. -/
theorem stop_persisted_notes_last_received_w :
    ((stopRecording envNone (processEvents [WsEvent.notesEvt sampleDoc, WsEvent.pong] recBg)).2).storageNotes
        = lastNotesDoc [WsEvent.notesEvt sampleDoc, WsEvent.pong] recBg.storageNotes ∧
      ((stopRecording envNone (processEvents [WsEvent.notesEvt sampleDoc, WsEvent.pong] recBg)).2).currentNotes
        = (processEvents [WsEvent.notesEvt sampleDoc, WsEvent.pong] recBg).currentNotes :=
  stop_persisted_notes_last_received envNone [WsEvent.notesEvt sampleDoc, WsEvent.pong] recBg

/-- C6: every execution of `startRecording` that fails after the Starting
transition began returns a structured failure, leaves `isRecording` false (the
session is back in Idle), and leaves the state in a condition from which an
unconditional `stop()` cleanup call is safe: it returns the `NotRecording`
failure without throwing and without disturbing the state or wedging the
session. -/
theorem failed_start_idle_and_stop_safe (env : StartEnv) (env2 : StopEnv) (s : BgState)
    (h0 : s.isRecording = false) (h1 : (startRecording env s).1.success = false) :
    (startRecording env s).2.isRecording = false ∧
      stopRecording env2 (startRecording env s).2
        = ({ success := false, error := some "Not recording", notes := none },
           (startRecording env s).2) := by
  have hrec : (startRecording env s).2.isRecording = false := by
    obtain ⟨tq, tab, wsA, cOk, so, gs, sc⟩ := env
    cases tq <;> cases tab <;> cases cOk <;> cases so <;> cases gs <;> cases sc <;>
      simp_all [startRecording]
  exact ⟨hrec, stop_noop_when_idle env2 (startRecording env s).2 hrec⟩

/-- Witness for C6: a start whose tab-capture handle acquisition throws after
the connection was opened and the offscreen document created. -/
theorem failed_start_idle_and_stop_safe_w :
    initBg.isRecording = false ∧
      (startRecording { envStartOk with getStreamIdErr := some "getMediaStreamId failed" }
        initBg).1.success = false ∧
      (startRecording { envStartOk with getStreamIdErr := some "getMediaStreamId failed" }
        initBg).2.isRecording = false ∧
      stopRecording envNone
          (startRecording { envStartOk with getStreamIdErr := some "getMediaStreamId failed" }
            initBg).2
        = ({ success := false, error := some "Not recording", notes := none },
           (startRecording { envStartOk with getStreamIdErr := some "getMediaStreamId failed" }
             initBg).2) := by
  have h := failed_start_idle_and_stop_safe
    { envStartOk with getStreamIdErr := some "getMediaStreamId failed" } envNone initBg rfl rfl
  exact ⟨rfl, rfl, h.1, h.2⟩

/-! Capture-pipeline lemmas. -/

/-- Helper: `activeCount` of a cons. -/
theorem activeCount_cons (e : CapEvent) (l : List CapEvent) :
    activeCount (e :: l) = activeDelta e + activeCount l := by
  simp [activeCount]

/-- Helper: `activeCount` is additive over append. -/
theorem activeCount_append (a b : List CapEvent) :
    activeCount (a ++ b) = activeCount a + activeCount b := by
  simp [activeCount]

/-- Helper: the running prefix maximum is never negative (the empty prefix
contributes 0). -/
theorem prefMax_nonneg (l : List CapEvent) : 0 ≤ prefMax l := by
  cases l with
  | nil => exact le_refl 0
  | cons e t => exact le_max_left 0 _

/-- Helper: addition distributes over `max` on `Int`. -/
theorem int_add_max (a b c : Int) : a + max b c = max (a + b) (a + c) := by
  rcases le_total b c with h | h
  · rw [max_eq_right h, max_eq_right (by omega)]
  · rw [max_eq_left h, max_eq_left (by omega)]

/-- Helper: the prefix maximum of an append. -/
theorem prefMax_append (a b : List CapEvent) :
    prefMax (a ++ b) = max (prefMax a) (activeCount a + prefMax b) := by
  induction a with
  | nil =>
      simp [prefMax, activeCount]
      exact prefMax_nonneg b
  | cons e t ih =>
      have h1 : prefMax ((e :: t) ++ b) = max 0 (activeDelta e + prefMax (t ++ b)) := rfl
      rw [h1, ih, int_add_max, ← max_assoc]
      have h2 : activeDelta e + (activeCount t + prefMax b)
          = activeCount (e :: t) + prefMax b := by
        rw [activeCount_cons]; ring
      rw [h2]
      rfl

/-- Helper: the count of any trace prefix is bounded by the prefix maximum. -/
theorem activeCount_prefix_le (p q : List CapEvent) :
    activeCount p ≤ prefMax (p ++ q) := by
  induction p with
  | nil =>
      have h : activeCount ([] : List CapEvent) = 0 := rfl
      rw [h]; exact prefMax_nonneg q
  | cons e t ih =>
      calc activeCount (e :: t) = activeDelta e + activeCount t := activeCount_cons e t
        _ ≤ activeDelta e + prefMax (t ++ q) := by exact add_le_add_left ih _
        _ ≤ max 0 (activeDelta e + prefMax (t ++ q)) := le_max_right 0 _
        _ = prefMax ((e :: t) ++ q) := rfl

/-- Helper: one spec-side rotation cycle never pushes the count above the
level it started at, and is balanced overall. -/
theorem chunkCycle_counts (k : Nat) :
    prefMax (chunkCycle k) = 0 ∧ activeCount (chunkCycle k) = 0 := by
  constructor <;> simp [chunkCycle, prefMax, activeCount, activeDelta]

/-- Helper: the rotation segment keeps the running count at or below its
starting level and is balanced overall. -/
theorem segTrace_counts (n : Nat) :
    ∀ k : Nat, prefMax (segTrace k n) = 0 ∧ activeCount (segTrace k n) = 0 := by
  induction n with
  | zero => intro k; exact ⟨rfl, rfl⟩
  | succ n ih =>
      intro k
      have h1 : segTrace k (n + 1) = chunkCycle k ++ segTrace (k + 1) n := rfl
      constructor
      · rw [h1, prefMax_append, (chunkCycle_counts k).1, (chunkCycle_counts k).2,
          (ih (k + 1)).1]
        simp
      · rw [h1, activeCount_append, (chunkCycle_counts k).2, (ih (k + 1)).2]
        simp

/-- Helper: the canonical run trace never has more than one encoder in the
`recording` state at any prefix. -/
theorem canonicalTrace_prefMax (n : Nat) : prefMax (canonicalTrace n) = 1 := by
  have h1 : canonicalTrace n
      = [CapEvent.encCreated 0, CapEvent.encStarted 0] ++ segTrace 0 n := rfl
  rw [h1, prefMax_append, (segTrace_counts n 0).1]
  have h2 : prefMax [CapEvent.encCreated 0, CapEvent.encStarted 0] = 1 := by decide
  have h3 : activeCount [CapEvent.encCreated 0, CapEvent.encStarted 0] = 1 := by decide
  rw [h2, h3]
  simp

/-- Helper: one rotation tick from the running state stops encoder `k` and
then starts encoder `k+1`. -/
theorem rotationTick_started (k : Nat) :
    rotationTick k (startedState k) = (startedState (k + 1), chunkCycle k) := by
  have h : ([k] : List Nat).erase k = [] := List.erase_cons_head k []
  simp [rotationTick, startedState, startRecordingParams, chunkCycle, h]

/-- Helper: closed form of an uninterrupted rotation run. -/
theorem rotateN_started : ∀ (n k : Nat),
    rotateN (startedState k) n = (startedState (k + n), segTrace k n) := by
  intro n
  induction n with
  | zero => intro k; simp [rotateN, segTrace]
  | succ n ih =>
      intro k
      have hstep : rotateN (startedState k) (n + 1)
          = ((rotateN (rotationTick k (startedState k)).1 n).1,
             (rotationTick k (startedState k)).2
               ++ (rotateN (rotationTick k (startedState k)).1 n).2) := rfl
      rw [hstep, rotationTick_started k, ih (k + 1)]
      have h2 : k + 1 + n = k + (n + 1) := by omega
      rw [h2]
      rfl

/-- Helper: a capture run refines the spec-side canonical trace. -/
theorem captureRun_eq (n : Nat) : captureRun n = (startedState n, canonicalTrace n) := by
  have h0 : startCapture initOffState
      = (startedState 0, [CapEvent.encCreated 0, CapEvent.encStarted 0]) := rfl
  have h1 := rotateN_started n 0
  rw [Nat.zero_add] at h1
  simp [captureRun, h0, h1, canonicalTrace]

/-- C5: the chunk-rotation loop is strictly serialized.  For every run of the
pipeline (stream bound, then `n` rotation timeouts), every prefix of the event
trace has at most one encoder in the `recording` state; the trace refines the
canonical rotation trace, in which each cycle stops the current encoder
strictly before creating and starting its successor; and each stopped
encoder's finalized (non-empty) output is handed off as exactly one AUDIO_DATA
message. -/
theorem chunk_rotation_serialized (n : Nat) (p q : List CapEvent)
    (h : (captureRun n).2 = p ++ q) :
    activeCount p ≤ 1 ∧
      (captureRun n).2 = canonicalTrace n ∧
      (∀ chunks : List String, chunks ≠ [] → (onstopMessages chunks).length = 1) := by
  have htr : (captureRun n).2 = canonicalTrace n := by rw [captureRun_eq]
  refine ⟨?_, htr, ?_⟩
  · calc activeCount p ≤ prefMax (p ++ q) := activeCount_prefix_le p q
      _ = prefMax (canonicalTrace n) := by rw [← h, htr]
      _ = 1 := canonicalTrace_prefMax n
  · intro chunks hc
    cases chunks with
    | nil => exact absurd rfl hc
    | cons a t => simp [onstopMessages]

/-- Witness for C5: a two-rotation run, split after the first encoder stop. -/
theorem chunk_rotation_serialized_w :
    activeCount
        [CapEvent.encCreated 0, CapEvent.encStarted 0, CapEvent.encStopped 0] ≤ 1 ∧
      (captureRun 2).2 = canonicalTrace 2 ∧
      (onstopMessages ["chunkdata"]).length = 1 := by
  have h := chunk_rotation_serialized 2
    [CapEvent.encCreated 0, CapEvent.encStarted 0, CapEvent.encStopped 0]
    [CapEvent.encCreated 1, CapEvent.encStarted 1, CapEvent.encStopped 1,
      CapEvent.encCreated 2, CapEvent.encStarted 2]
    (by decide)
  exact ⟨h.1, h.2.1, h.2.2 ["chunkdata"] (by decide)⟩

/-- C9: `stopCapture` is idempotent and total: a second call performs no
action (no events) and leaves the post-state of the first call unchanged;
calling it when `startCapture` was never invoked (all handles null) is a
no-op with no error; after one call the stream, playback routing, recorder
reference and pending timer are all released; its actions are a subsequence of
the cleanup order timer-cancel, encoder-stop, track-release, routing-release;
and it stops an encoder only if one is referenced and still active. -/
theorem stopCapture_idempotent_safe (s : OffState) (r : Nat) :
    (stopCapture (stopCapture s).1).1 = (stopCapture s).1 ∧
      (stopCapture (stopCapture s).1).2 = [] ∧
      stopCapture initOffState = (initOffState, []) ∧
      (stopCapture s).1.mediaStream = false ∧
      (stopCapture s).1.audioContext = false ∧
      (stopCapture s).1.mediaRecorder = none ∧
      (stopCapture s).1.recordingInterval = false ∧
      List.Sublist (stopCapture s).2 (stopOrder s) ∧
      (CapEvent.encStopped r ∈ (stopCapture s).2 →
        s.mediaRecorder = some r ∧ r ∈ s.activeRecorders) := by
  obtain ⟨ms, ar, mr, ni, ri, ac⟩ := s
  refine ⟨?_, ?_, ?_, ?_, ?_, ?_, ?_, ?_, ?_⟩
  · simp [stopCapture]
  · simp [stopCapture]
  · rfl
  · simp [stopCapture]
  · simp [stopCapture]
  · simp [stopCapture]
  · simp [stopCapture]
  · have h1 : List.Sublist (if ri then [CapEvent.timerCancelled] else [])
        [CapEvent.timerCancelled] := by
      cases ri <;> simp
    have h2 : List.Sublist
        (match mr with
          | some a => if a ∈ ar then [CapEvent.encStopped a] else []
          | none => ([] : List CapEvent))
        (match mr with
          | some a => [CapEvent.encStopped a]
          | none => ([] : List CapEvent)) := by
      cases mr with
      | none => simp
      | some a => by_cases hm : a ∈ ar <;> simp [hm]
    have h3 : List.Sublist (if ms then [CapEvent.tracksStopped] else [])
        [CapEvent.tracksStopped] := by
      cases ms <;> simp
    have h4 : List.Sublist (if ac then [CapEvent.contextClosed] else [])
        [CapEvent.contextClosed] := by
      cases ac <;> simp
    have h5 := ((h1.append h2).append h3).append h4
    simpa [stopCapture, stopOrder, List.append_assoc] using h5
  · intro h
    cases mr with
    | none =>
        exfalso
        cases ri <;> cases ms <;> cases ac <;> simp [stopCapture] at h
    | some a =>
        by_cases hm : a ∈ ar
        · cases ri <;> cases ms <;> cases ac <;> simp [stopCapture, hm] at h <;>
            (subst h; exact ⟨rfl, hm⟩)
        · exfalso
          cases ri <;> cases ms <;> cases ac <;> simp [stopCapture, hm] at h

/-- Witness for C9: stopping a running capture, then stopping again. -/
theorem stopCapture_idempotent_safe_w :
    (stopCapture (stopCapture (startedState 0)).1).1 = (stopCapture (startedState 0)).1 ∧
      (stopCapture (stopCapture (startedState 0)).1).2 = [] ∧
      stopCapture initOffState = (initOffState, []) ∧
      ((startedState 0).mediaRecorder = some 0 ∧ 0 ∈ (startedState 0).activeRecorders) := by
  have h := stopCapture_idempotent_safe (startedState 0) 0
  exact ⟨h.1, h.2.1, h.2.2.1, h.2.2.2.2.2.2.2.2 (by decide)⟩

end MeetingNoter
